import Mathlib

/-!
Verification of the hermeto pip / yarn-classic resolution and verification engine.

This file is a shallow embedding, in Lean 4, of the parts of
`hermeto/core/package_managers/pip/main.py` and
`hermeto/core/package_managers/yarn_classic/workspaces.py` that the verified
properties speak about.  Pure Python functions become Lean functions; the
filesystem, the network and archive contents are passed in explicitly as data;
code that raises exceptions returns `Except HermetoError`.  Functions from
modules of the repository whose sources are not available (for example
`hermeto.core.checksum` and `hermeto.core.rooted_path`) are modelled from the
specification and are marked as such in their doc comments.
-/

/-- Errors raised by the engine, mirroring `hermeto.core.errors` plus the
built-in Python exceptions the embedded code can raise.  `packageRejected`
carries the human-readable reason and the suggested remediation (`solution`). -/
inductive HermetoError where
  | packageRejected (reason : String) (solution : Option String)
  | unsupportedFeature (reason : String)
  | fetchError (reason : String)
  | unexpectedFormat (reason : String)
  | pathOutsideRoot (reason : String)
  | valueError (reason : String)
  | runtimeError (reason : String)
deriving DecidableEq

/-- The kind of a `PipRequirement`, the `Literal["pypi", "url", "vcs"]` of the source. -/
inductive ReqKind where
  | pypi
  | url
  | vcs
deriving DecidableEq

/-- An (algorithm, digest) pair, `hermeto.core.checksum.ChecksumInfo`. -/
structure ChecksumInfo where
  algorithm : String
  digest : String
deriving DecidableEq

/-! ### String helpers

Small, executable models of the Python `str` / `urllib.parse` / `os.path`
operations used by the embedded code.  They work on `List Char` to keep the
definitions easy to evaluate and reason about. -/

/-- Split a character list at the first occurrence of `sep`; `none` when `sep`
does not occur. -/
def splitFirstAux (sep : Char) : List Char → Option (List Char × List Char)
  | [] => none
  | c :: cs =>
    if c = sep then some ([], cs)
    else (splitFirstAux sep cs).map (fun p => (c :: p.1, p.2))

/-- Split a string at the first occurrence of `sep`. -/
def split_first (sep : Char) (s : String) : Option (String × String) :=
  (splitFirstAux sep s.toList).map (fun p => (String.mk p.1, String.mk p.2))

/-- Python `s.endswith(suffix)`. -/
def py_endswith (s suffix : String) : Bool :=
  suffix.toList.isSuffixOf s.toList

/-- Python `s.startswith(pre)`. -/
def py_startswith (s pre : String) : Bool :=
  pre.toList.isPrefixOf s.toList

/-- Characters accumulated so far (reversed) are flushed at separators; used
to model Python string splitting with structural recursion. -/
def split_on_char_aux (sep : Char) : List Char → List Char → List String
  | acc, [] => [String.mk acc.reverse]
  | acc, c :: cs =>
    if c = sep then String.mk acc.reverse :: split_on_char_aux sep [] cs
    else split_on_char_aux sep (c :: acc) cs

/-- Python `s.split(sep)` for a single-character separator (keeps empty parts). -/
def split_on_char (sep : Char) (s : String) : List String :=
  split_on_char_aux sep [] s.toList

/-- Python `s.split()` on whitespace: split on runs of spaces, dropping empties. -/
def py_split_ws (s : String) : List String :=
  (split_on_char ' ' s).filter (fun t => t ≠ "")

/-- Python `sep.join(parts)`. -/
def py_join (sep : String) : List String → String
  | [] => ""
  | [s] => s
  | s :: rest => s ++ sep ++ py_join sep rest

/-- ASCII lower-casing (Python `s.lower()` for the ASCII strings handled here). -/
def py_tolower (s : String) : String :=
  String.mk (s.toList.map Char.toLower)

/-- The final path component, i.e. what follows the last `/` (`os.path.split(p)[1]`,
and `pathlib.PurePath(p).name` for the paths that occur here, which have no
trailing slash). -/
def path_basename (s : String) : String :=
  String.mk ((s.toList.reverse.takeWhile (fun c => !(c = '/'))).reverse)

/-- Python `s.rstrip("/")`. -/
def rstrip_slash (s : String) : String :=
  String.mk ((s.toList.reverse.dropWhile (fun c => c = '/')).reverse)

/-- Python `s.partition(":")`, keeping only the parts before and after the first
colon; when there is no colon the result is `(s, "")`. -/
def partition_colon (s : String) : String × String :=
  match split_first ':' s with
  | some p => p
  | none => (s, "")

/-- Hexadecimal value of a character, `none` for non-hex characters. -/
def hexVal (c : Char) : Option Nat :=
  if '0' ≤ c ∧ c ≤ '9' then some (c.toNat - '0'.toNat)
  else if 'a' ≤ c ∧ c ≤ 'f' then some (c.toNat - 'a'.toNat + 10)
  else if 'A' ≤ c ∧ c ≤ 'F' then some (c.toNat - 'A'.toNat + 10)
  else none

/-- Percent-decoding of `urllib.parse.unquote`, at the level of single bytes
(multi-byte UTF-8 sequences are not reassembled; the verified properties do not
depend on that). -/
def unquoteAux : List Char → List Char
  | '%' :: h1 :: h2 :: rest =>
    match hexVal h1, hexVal h2 with
    | some a, some b => Char.ofNat (16 * a + b) :: unquoteAux rest
    | _, _ => '%' :: h1 :: h2 :: unquoteAux rest
  | c :: rest => c :: unquoteAux rest
  | [] => []

/-- Python `urllib.parse.unquote`. -/
def py_unquote (s : String) : String :=
  String.mk (unquoteAux s.toList)

/-- Result of `urllib.parse.urlparse` (the components used by the source;
params are not split out because the embedded code never reads them). -/
structure ParseResult where
  scheme : String
  netloc : String
  path : String
  query : String
  fragment : String
deriving DecidableEq

/-- Is `cs` a valid URL scheme: nonempty, starts with a letter, and contains
only letters, digits, `+`, `-` and `.` (as in CPython `urllib.parse`). -/
def scheme_chars_ok (cs : List Char) : Bool :=
  match cs with
  | [] => false
  | c :: rest => c.isAlpha && rest.all (fun d => d.isAlphanum || d = '+' || d = '-' || d = '.')

/-- Model of `urllib.parse.urlparse`: split off the scheme at the first `:`
when the part before it is a valid scheme, then the netloc after `//` (up to
the next `/`, `?` or `#`), then the fragment at the first `#`, then the query
at the first `?`; what remains is the path. -/
def urlparse (url : String) : ParseResult :=
  let schemeRest : String × List Char :=
    match splitFirstAux ':' url.toList with
    | some p => if scheme_chars_ok p.1 then (py_tolower (String.mk p.1), p.2) else ("", url.toList)
    | none => ("", url.toList)
  let netlocRest : String × List Char :=
    if schemeRest.2.take 2 = ['/', '/'] then
      let after := schemeRest.2.drop 2
      (String.mk (after.takeWhile (fun c => !(c = '/' || c = '?' || c = '#'))),
       after.dropWhile (fun c => !(c = '/' || c = '?' || c = '#')))
    else ("", schemeRest.2)
  let fragSplit : List Char × String :=
    match splitFirstAux '#' netlocRest.2 with
    | some p => (p.1, String.mk p.2)
    | none => (netlocRest.2, "")
  let querySplit : String × String :=
    match splitFirstAux '?' fragSplit.1 with
    | some p => (String.mk p.1, String.mk p.2)
    | none => (String.mk fragSplit.1, "")
  ⟨schemeRest.1, netlocRest.1, querySplit.1, querySplit.2, fragSplit.2⟩

/-- Python `urllib.parse.urldefrag`: the URL without its fragment, and the
fragment (empty when there is none). -/
def urldefrag (url : String) : String × String :=
  match split_first '#' url with
  | some p => p
  | none => (url, "")

/-- Lookup in a Python dict modelled as an association list (first binding wins). -/
def dict_get (d : List (String × String)) (k : String) : Option String :=
  (d.find? (fun p => p.1 = k)).map (fun p => p.2)

/-- First value listed for `key` by `urllib.parse.parse_qs(qs)[key]`: sections are
separated by `&`, a section without `=` is dropped, the value is split at the
first `=` and percent-decoded, and blank values are dropped
(`keep_blank_values` is false by default).  `none` models the `KeyError` of a
missing key. -/
def parse_qs_first (qs key : String) : Option String :=
  (((split_on_char '&' qs).filterMap (fun sec =>
      (split_first '=' sec).map (fun p => (p.1, py_unquote p.2)))).filter
    (fun p => p.2 ≠ "")).find? (fun p => p.1 = key) |>.map (fun p => p.2)

/-! ### DistributionPackageInfo (pip/main.py lines 80-151) -/

/-- Relevant information about a distribution package
(`DistributionPackageInfo` from pip/main.py).  `path` is kept as a string.
The checksum collections are Python `set`s, modelled as `Finset`. -/
structure DistributionPackageInfo where
  name : String
  version : String
  package_type : String
  path : String
  url : String
  index_url : String
  is_yanked : Bool
  pypi_checksums : Finset ChecksumInfo
  req_file_checksums : Finset ChecksumInfo
  checksums_to_match : Finset ChecksumInfo
deriving DecidableEq

/-- `DistributionPackageInfo._determine_checksums_to_match`: intersection when
both checksum sets are truthy (non-empty), else whichever is non-empty, else
the empty set. -/
def determine_checksums_to_match (pypi_checksums req_file_checksums : Finset ChecksumInfo) :
    Finset ChecksumInfo :=
  if pypi_checksums.Nonempty ∧ req_file_checksums.Nonempty then
    pypi_checksums ∩ req_file_checksums
  else if pypi_checksums.Nonempty then
    pypi_checksums
  else if req_file_checksums.Nonempty then
    req_file_checksums
  else
    ∅

/-- Constructor mirroring the dataclass `__post_init__`: `checksums_to_match`
is computed from the other two checksum fields. -/
def DistributionPackageInfo.make (name version package_type path url index_url : String)
    (is_yanked : Bool) (pypi_checksums req_file_checksums : Finset ChecksumInfo) :
    DistributionPackageInfo :=
  ⟨name, version, package_type, path, url, index_url, is_yanked, pypi_checksums,
   req_file_checksums, determine_checksums_to_match pypi_checksums req_file_checksums⟩

/-- `DistributionPackageInfo.should_download`. -/
def DistributionPackageInfo.should_download (dpi : DistributionPackageInfo) : Bool :=
  decide (0 < dpi.checksums_to_match.card) ||
  decide (dpi.pypi_checksums.card = 0) ||
  decide (dpi.req_file_checksums.card = 0)

/-- `DistributionPackageInfo.has_checksums_to_match`. -/
def DistributionPackageInfo.has_checksums_to_match (dpi : DistributionPackageInfo) : Bool :=
  decide (0 < dpi.checksums_to_match.card)

/-! ### Constants (pip/main.py lines 57-66) -/

/-- `SDIST_FILE_EXTENSIONS`. -/
def SDIST_FILE_EXTENSIONS : List String :=
  [".zip", ".tar.gz", ".tar.bz2", ".tar.xz", ".tar.Z", ".tar"]

/-- `WHEEL_FILE_EXTENSION`. -/
def WHEEL_FILE_EXTENSION : String := ".whl"

/-- `ALL_FILE_EXTENSIONS`. -/
def ALL_FILE_EXTENSIONS : List String :=
  SDIST_FILE_EXTENSIONS ++ [WHEEL_FILE_EXTENSION]

/-- Is `c` a hexadecimal digit (for the `[a-fA-F0-9]` class of `GIT_REF_IN_PATH`). -/
def isHexChar (c : Char) : Bool :=
  c.isDigit || ('a' ≤ c && c ≤ 'f') || ('A' ≤ c && c ≤ 'F')

/-- `GIT_REF_IN_PATH.search(path)`: does the path end with `@` followed by a
full-length (40 hexadecimal characters) git ref?  The regex is
`@[a-fA-F0-9]{40}$`. -/
def git_ref_in_path (path : String) : Bool :=
  let cs := path.toList
  decide (41 ≤ cs.length) &&
    (let tail := cs.drop (cs.length - 41)
     tail.head? = some '@' && tail.tail.all isHexChar)

/-! ### Checksum verification -/

/-- Modelled from the spec: `hermeto.core.checksum.must_match_any_checksum` is
not under src/.  Per the spec (section 4.6) it computes every algorithm present
in the expected set over the artifact content and passes if **any** entry
matches, raising `PackageRejected` otherwise.  The artifact's content is
abstracted by `digestOf`, its digest under each algorithm; the expected
`Iterable[ChecksumInfo]` is modelled as a `Finset` since only membership
matters for an any-of match. -/
def must_match_any_checksum (digestOf : String → String)
    (checksum_info : Finset ChecksumInfo) : Except HermetoError Unit :=
  if ∃ c ∈ checksum_info, digestOf c.algorithm = c.digest then
    .ok ()
  else
    .error (.packageRejected "checksum mismatch" none)

/-- `_checksum_must_match_or_path_unlink` (pip/main.py lines 1521-1529): call
`must_match_any_checksum`; on `PackageRejected` the artifact file is unlinked
and a warning is logged, and the exception is **not** re-raised.  The returned
Bool says whether the file is still present in the output directory; the
return type records that no error escapes this wrapper. -/
def checksum_must_match_or_path_unlink (digestOf : String → String)
    (checksum_info : Finset ChecksumInfo) : Bool :=
  match must_match_any_checksum digestOf checksum_info with
  | .ok _ => true
  | .error _ => false

/-! ### PipRequirement (pip/main.py lines 1233-1506) -/

/-- A parsed requirement line (`PipRequirement`).  The fields are those the
verified code reads; `url` is derived from `download_line` exactly as the
source property does. -/
structure PipRequirement where
  package : String
  raw_package : String
  version_specs : List (String × String)
  hashes : List String
  qualifiers : List (String × String)
  kind : ReqKind
  download_line : String
deriving DecidableEq

/-- `PipRequirement.url`: the third whitespace-separated part of the download
line (`package @ url`).  The source raises IndexError on malformed lines;
here a missing part becomes the empty string. -/
def PipRequirement.url (req : PipRequirement) : String :=
  (py_split_ws req.download_line).getD 2 ""

/-- Truthiness of `req.qualifiers.get("cachito_hash")`: present with a
non-empty value. -/
def cachito_hash_truthy (req : PipRequirement) : Bool :=
  match dict_get req.qualifiers "cachito_hash" with
  | some v => v ≠ ""
  | none => false

/-- The validation applied to a single requirement: the loop body of
`_validate_requirements` (pip/main.py lines 1787-1850). -/
def validate_requirement (allow_binary : Bool) (req : PipRequirement) :
    Except HermetoError Unit :=
  match req.kind with
  | .pypi =>
    -- Fail if PyPI requirement is not pinned to an exact version
    let vspec := req.version_specs
    if vspec.length ≠ 1 ∨ (vspec.headD ("", "")).1 ∉ (["==", "==="] : List String) then
      .error (.packageRejected
        ("Requirement must be pinned to an exact version: " ++ req.download_line)
        (some ("Please pin all packages as <name>==<version>\n" ++
          "You may wish to use a tool such as pip-compile to pin automatically.")))
    else
      .ok ()
  | .vcs =>
    -- Fail if VCS requirement uses any VCS other than git or has no valid ref
    let url := urlparse req.url
    if !(py_startswith url.scheme "git") then
      .error (.unsupportedFeature
        ("Unsupported VCS for " ++ req.download_line ++ ": " ++ url.scheme ++
          " (only git is supported)"))
    else if !(git_ref_in_path url.path) then
      .error (.packageRejected
        ("No git ref in " ++ req.download_line ++ " (expected 40 hexadecimal characters)")
        (some "Please specify the full commit hash for git URLs or switch to https URLs."))
    else
      .ok ()
  | .url =>
    -- Fail if URL requirement does not specify exactly one hash or lacks a
    -- recognized file extension
    let n_hashes := req.hashes.length + (if cachito_hash_truthy req then 1 else 0)
    if n_hashes ≠ 1 then
      .error (.packageRejected
        ("URL requirement must specify exactly one hash, but specifies " ++
          toString n_hashes ++ ": " ++ req.download_line ++ ".")
        (some ("Please specify the expected hashes for all plain URLs using " ++
          "--hash options (one --hash for each)")))
    else
      let allowed_extensions := if allow_binary then ALL_FILE_EXTENSIONS else SDIST_FILE_EXTENSIONS
      let url := urlparse req.url
      if !(allowed_extensions.any (fun ext => py_endswith url.path ext)) then
        .error (.packageRejected
          ("URL for requirement does not contain any recognized file extension: " ++
            req.download_line ++ " (expected one of " ++ py_join ", " allowed_extensions ++ ")")
          none)
      else
        .ok ()

/-- `_validate_requirements`: validate every requirement in order; the first
violation raises. -/
def validate_requirements (requirements : List PipRequirement) (allow_binary : Bool) :
    Except HermetoError Unit :=
  match requirements with
  | [] => .ok ()
  | req :: rest =>
    match validate_requirement allow_binary req with
    | .ok _ => validate_requirements rest allow_binary
    | .error e => .error e

/-- `_to_checksum_info`: split an `algorithm:digest` specifier at the first colon. -/
def to_checksum_info (hash : String) : ChecksumInfo :=
  ⟨(partition_colon hash).1, (partition_colon hash).2⟩

/-! ### Sdist metadata check (pip/main.py lines 2361-2424) -/

/-- `_is_pkg_info_dir`: does the path's final component equal `PKG-INFO`? -/
def is_pkg_info_dir (path : String) : Bool :=
  path_basename path = "PKG-INFO"

/-- Does `_check_metadata_in_sdist` open the archive file?  True in the
`.zip` dispatch branch and in the tar dispatch branch; the `.tar.Z` branch
returns after only a warning without touching the file, and an unrecognized
extension raises before any file access. -/
def sdist_check_opens_file (sdist_name : String) : Bool :=
  py_endswith sdist_name ".zip" ||
    (!py_endswith sdist_name ".tar.Z" &&
      SDIST_FILE_EXTENSIONS.any (fun ext => py_endswith sdist_name ext))

/-- `_check_metadata_in_sdist`: inspect the archive's member names
(`sdist_members`, the file-content data the source reads through
zipfile/tarfile) and reject the sdist when no member is a `PKG-INFO` file.
`.tar.Z` archives are skipped with a warning; an unrecognized extension is a
`ValueError` (invalid usage).  `file_present` says whether the artifact file
still exists on disk: the zip/tar branches open it (`zipfile.ZipFile` /
`tarfile.open`), and on a missing file that raises `FileNotFoundError`, which
the handlers for `tarfile.ReadError` and `zipfile.BadZipFile` (pip/main.py
lines 2417-2424) do not catch. -/
def check_metadata_in_sdist (file_present : Bool) (sdist_name : String)
    (sdist_members : List String) : Except HermetoError Unit :=
  if sdist_check_opens_file sdist_name then
    if !file_present then
      .error (.runtimeError "FileNotFoundError: no such file or directory")
    else if sdist_members.any is_pkg_info_dir then
      .ok ()
    else
      .error (.packageRejected
        (sdist_name ++ " does not include metadata (there is no PKG-INFO file). " ++
          "It is not a valid sdist and cannot be downloaded from PyPI.")
        (some ("Consider editing your requirements file to download the package from git " ++
          "or a direct download URL instead.")))
  else if py_endswith sdist_name ".tar.Z" then
    .ok ()
  else
    .error (.valueError ("Cannot check metadata from " ++ sdist_name ++
      ", which does not have a known supported extension."))

/-! ### _process_req (pip/main.py lines 1509-1558) -/

/-- The fields of the `download_info` dict that `_process_req` writes and the
rest of the pipeline reads. -/
structure DownloadInfo where
  package : String
  version : String
  path : String
  kind : ReqKind
  requirement_file : String
  missing_req_file_checksum : Bool
  package_type : String
  index_url : Option String
deriving DecidableEq

/-- Result of `_process_req`: the updated `download_info`, plus whether the
downloaded artifact file is still present in the output directory (it is
unlinked on a checksum mismatch). -/
structure ProcessedReq where
  info : DownloadInfo
  artifact_kept : Bool
deriving DecidableEq

/-- `_process_req`.  `digestOf` abstracts the downloaded artifact's content
(its digest under each algorithm) and `sdist_members` the archive's member
names; both are facts the source reads from the filesystem.  The base fields
are set first; with a `dpi` the requirements checksum flag, the (non-fatal)
checksum verification, the sdist metadata check and the package type /
index url follow; a VCS requirement changes nothing
(`missing_req_file_checksum` stays True); a URL requirement verifies against
its own hashes (or `cachito_hash`).  The metadata check receives `kept` as its
file-present flag: a checksum mismatch has just unlinked the file, so for a
zip/tar sdist the check then opens a missing file and the resulting
`FileNotFoundError` propagates out of `_process_req`. -/
def process_req (digestOf : String → String) (sdist_members : List String)
    (req : PipRequirement) (requirement_file_subpath : String)
    (download_info : DownloadInfo) (dpi : Option DistributionPackageInfo) :
    Except HermetoError ProcessedReq :=
  let info : DownloadInfo :=
    ⟨download_info.package, download_info.version, download_info.path, req.kind,
     requirement_file_subpath, true, "", download_info.index_url⟩
  match dpi with
  | some d =>
    let info1 : DownloadInfo :=
      ⟨info.package, info.version, info.path, info.kind, info.requirement_file,
       !d.req_file_checksums.Nonempty, info.package_type, info.index_url⟩
    let kept : Bool :=
      if d.has_checksums_to_match then
        checksum_must_match_or_path_unlink digestOf d.checksums_to_match
      else
        true
    match (if d.package_type = "sdist" then
            check_metadata_in_sdist kept (path_basename d.path) sdist_members
          else .ok ()) with
    | .error e => .error e
    | .ok _ =>
      .ok ⟨⟨info1.package, info1.version, info1.path, info1.kind, info1.requirement_file,
            info1.missing_req_file_checksum, d.package_type, some d.index_url⟩, kept⟩
  | none =>
    match req.kind with
    | .vcs =>
      -- `missing_req_file_checksum` is *always* True for VCS deps
      .ok ⟨info, true⟩
    | .url =>
      let hashes : List String :=
        if req.hashes ≠ [] then req.hashes
        else [(dict_get req.qualifiers "cachito_hash").getD ""]
      if hashes ≠ [] then
        let info2 : DownloadInfo :=
          ⟨info.package, info.version, info.path, info.kind, info.requirement_file,
           false, info.package_type, info.index_url⟩
        let kept := checksum_must_match_or_path_unlink digestOf
          ((hashes.map to_checksum_info).toFinset)
        .ok ⟨info2, kept⟩
      else
        .ok ⟨info, true⟩
    | .pypi =>
      .ok ⟨info, true⟩

/-! ### _process_package_distributions (pip/main.py lines 1887-2005) -/

/-- One entry of the PyPI project page (`pypi_simple.DistributionPackage`):
the attributes the source reads.  `digests` is the algorithm-to-digest dict. -/
structure PyPIDistributionPackage where
  version : Option String
  package_type : Option String
  filename : String
  url : String
  is_yanked : Bool
  digests : List (String × String)
deriving DecidableEq

/-- The `_is_valid` predicate of `_process_package_distributions`: version and
package type present, version canonicalizes to the requirement's, type
allowed.  `canonicalize_version` (the `packaging` library) is passed in
explicitly. -/
def pkg_is_valid (canonicalize_version : String → String) (normalized_version : String)
    (allowed_distros : List String) (pkg : PyPIDistributionPackage) : Bool :=
  match pkg.version, pkg.package_type with
  | some v, some t => canonicalize_version v = normalized_version && allowed_distros.contains t
  | _, _ => false

/-- The `DistributionPackageInfo` built for one valid PyPI package in the loop
of `_process_package_distributions`. -/
def dpi_of_pkg (name version index_url pip_deps_dir : String)
    (req_file_checksums : Finset ChecksumInfo) (pkg : PyPIDistributionPackage) :
    DistributionPackageInfo :=
  DistributionPackageInfo.make name version (pkg.package_type.getD "")
    (pip_deps_dir ++ "/" ++ pkg.filename) pkg.url index_url pkg.is_yanked
    ((pkg.digests.map (fun p => (⟨p.1, p.2⟩ : ChecksumInfo))).toFinset)
    req_file_checksums

/-- All `DistributionPackageInfo`s built from the valid project-page entries. -/
def eligible_dpis (canonicalize_version : String → String) (name version : String)
    (req_file_checksums : Finset ChecksumInfo) (allowed_distros : List String)
    (packages : List PyPIDistributionPackage) (index_url pip_deps_dir : String) :
    List DistributionPackageInfo :=
  (packages.filter
      (pkg_is_valid canonicalize_version (canonicalize_version version) allowed_distros)).map
    (dpi_of_pkg name version index_url pip_deps_dir req_file_checksums)

/-- The sdist candidates: valid entries that pass `should_download` and are of
sdist type (the `sdists` list of the source loop, in order). -/
def eligible_sdists (canonicalize_version : String → String) (name version : String)
    (req_file_checksums : Finset ChecksumInfo) (allowed_distros : List String)
    (packages : List PyPIDistributionPackage) (index_url pip_deps_dir : String) :
    List DistributionPackageInfo :=
  (eligible_dpis canonicalize_version name version req_file_checksums allowed_distros packages
      index_url pip_deps_dir).filter
    (fun d => d.should_download && d.package_type = "sdist")

/-- The wheel candidates (the `wheels` list of the source loop, in order). -/
def eligible_wheels (canonicalize_version : String → String) (name version : String)
    (req_file_checksums : Finset ChecksumInfo) (allowed_distros : List String)
    (packages : List PyPIDistributionPackage) (index_url pip_deps_dir : String) :
    List DistributionPackageInfo :=
  (eligible_dpis canonicalize_version name version req_file_checksums allowed_distros packages
      index_url pip_deps_dir).filter
    (fun d => d.should_download && !(d.package_type = "sdist"))

/-- Strict lexicographic order on preference tuples (Python tuple `<`). -/
def tuple_lt (a b : Nat × Nat) : Prop :=
  a.1 < b.1 ∨ (a.1 = b.1 ∧ a.2 < b.2)

instance (a b : Nat × Nat) : Decidable (tuple_lt a b) :=
  inferInstanceAs (Decidable (_ ∨ _))

/-- Python `max(xs, key=key)` for a nonempty list `best :: rest`: keep the
current maximum, replacing it only when a later element's key is strictly
greater, so ties keep the earliest element. -/
def py_max_by (key : DistributionPackageInfo → Nat × Nat) :
    DistributionPackageInfo → List DistributionPackageInfo → DistributionPackageInfo
  | best, [] => best
  | best, y :: ys => py_max_by key (if tuple_lt (key best) (key y) then y else best) ys

/-- `_sdist_preference` (pip/main.py lines 2008-2029): prefer files that are
not yanked over ones that are, then `.tar.gz` over `.zip` over anything else.
Note that the source computes the file-type preference from the `name` field
of the `DistributionPackageInfo` (the package name), not from the artifact
filename. -/
def sdist_preference (sdist_pkg : DistributionPackageInfo) : Nat × Nat :=
  let yanked_pref : Nat := if sdist_pkg.is_yanked then 0 else 1
  let filename := sdist_pkg.name
  let filetype_pref : Nat :=
    if py_endswith filename ".tar.gz" then 2
    else if py_endswith filename ".zip" then 1
    else 0
  (yanked_pref, filetype_pref)

/-- `_process_package_distributions` after the PyPI page has been fetched: the
network query is external, so the project page's packages are an input.
Filter by validity and `should_download`, split into sdists and wheels, pick
the best sdist by `max(sdists, key=_sdist_preference)` and append all wheels;
raise `PackageRejected` when nothing remains. -/
def process_package_distributions (canonicalize_version : String → String)
    (req : PipRequirement) (packages : List PyPIDistributionPackage)
    (allow_binary : Bool) (index_url pip_deps_dir : String) :
    Except HermetoError (List DistributionPackageInfo) :=
  let allowed_distros := if allow_binary then ["sdist", "wheel"] else ["sdist"]
  match req.version_specs with
  | [] => .error (.runtimeError "IndexError: version_specs is empty")
  | (_, version) :: _ =>
    let name := req.package
    let req_file_checksums := (req.hashes.map to_checksum_info).toFinset
    let sdists := eligible_sdists canonicalize_version name version req_file_checksums
      allowed_distros packages index_url pip_deps_dir
    let wheels := eligible_wheels canonicalize_version name version req_file_checksums
      allowed_distros packages index_url pip_deps_dir
    match sdists with
    | best :: rest =>
      .ok (py_max_by sdist_preference best rest :: wheels)
    | [] =>
      if wheels.isEmpty then
        .error (.packageRejected
          ("No distributions found for package " ++ name ++ "==" ++ version)
          (if allow_binary then
            some ("Please check that the package exists on PyPI or that the name" ++
              " and version are correct.\n")
          else
            some ("It seems that this version does not exist or isn't published as an" ++
              " sdist.\n" ++
              "Try to specify the dependency directly via a URL instead, for example," ++
              " the tarball for a GitHub release.\n" ++
              "Alternatively, allow the use of wheels.")))
      else
        .ok wheels

/-! ### External requirement file paths (pip/main.py lines 2320-2358) -/

/-- Git information extracted from a VCS requirement URL. -/
structure GitInfo where
  url : String
  host : String
  namespc : String
  repo : String
  ref : String
deriving DecidableEq

/-- Modelled from the spec: `extract_git_info` lives in
`hermeto.core.package_managers.general`, which is not under src/.  Per the
spec (section 6), the identifying data of a VCS dependency are the git host,
namespace, repository and commit ref; this model splits the ref off at the
last `@` of the URL, drops an optional `git+` scheme marker, and reads host,
namespace and repository from the URL path. -/
def extract_git_info (url : String) : GitInfo :=
  let refSplit : List Char × List Char :=
    match splitFirstAux '@' url.toList.reverse with
    | some p => (p.2.reverse, p.1.reverse)
    | none => (url.toList, [])
  let cleanUrl : String :=
    if py_startswith (String.mk refSplit.1) "git+" then String.mk (refSplit.1.drop 4)
    else String.mk refSplit.1
  let parsed := urlparse cleanUrl
  let pathParts := (split_on_char '/' parsed.path).filter (fun s => s ≠ "")
  let repo := (pathParts.getLast?).getD ""
  let repo := if py_endswith repo ".git" then String.mk (repo.toList.take (repo.toList.length - 4))
    else repo
  ⟨cleanUrl, parsed.netloc, py_join "/" pathParts.dropLast, repo,
   String.mk refSplit.2⟩

/-- The hash specifier a URL requirement's cache filename is derived from:
`hashes[0]` when `--hash` options are present, else the `cachito_hash`
qualifier (`none` models the `KeyError` when neither exists). -/
def url_req_hash_spec (requirement : PipRequirement) : Option String :=
  match requirement.hashes with
  | h :: _ => some h
  | [] => dict_get requirement.qualifiers "cachito_hash"

/-- The recognized file extension of a URL requirement: the first entry of
`ALL_FILE_EXTENSIONS` that the URL's path ends with, else the empty string. -/
def url_req_file_ext (requirement : PipRequirement) : String :=
  ((ALL_FILE_EXTENSIONS.find? (fun ext => py_endswith (urlparse requirement.url).path ext)).getD "")

/-- `_get_external_requirement_filepath`: the relative path under `deps/pip/`
where a URL or VCS requirement is placed, as a list of path components.  For a
URL requirement it is synthesized from the package name, the hash algorithm
and digest, and the URL's file extension — except that wheel filenames are
kept unchanged (and unquoted).  For a VCS requirement it is synthesized from
the git host, namespace, repository and ref. -/
def get_external_requirement_filepath (requirement : PipRequirement) :
    Except HermetoError (List String) :=
  match requirement.kind with
  | .url =>
    let package := requirement.package
    match url_req_hash_spec requirement with
    | none => .error (.runtimeError "KeyError: cachito_hash")
    | some hash_spec =>
      let algorithm := (partition_colon hash_spec).1
      let digest := (partition_colon hash_spec).2
      let file_ext := url_req_file_ext requirement
      if file_ext = WHEEL_FILE_EXTENSION then
        -- wheel filename must remain unchanged and unquoted
        .ok [py_unquote (path_basename (urlparse requirement.url).path)]
      else
        -- e.g. external-pyarn/pyarn-external-sha256-deadbeef.tar.gz
        .ok ["external-" ++ package,
             package ++ "-external-" ++ algorithm ++ "-" ++ digest ++ file_ext]
  | .vcs =>
    let git_info := extract_git_info requirement.url
    -- e.g. github.com/containerbuildsystem/pyarn/pyarn-external-gitcommit-badbeef.tar.gz
    .ok [git_info.host, git_info.namespc, git_info.repo,
         git_info.repo ++ "-external-gitcommit-" ++ git_info.ref ++ ".tar.gz"]
  | .pypi =>
    .error (.valueError "requirement.kind is neither 'url' nor 'vcs'")

/-! ### Package URL generation (pip/main.py lines 300-331) -/

/-- The data handed to the `packageurl` library: type, name, version,
qualifiers and subpath.  `qualifiers = none` omits qualifiers entirely. -/
structure PackageURLData where
  type : String
  name : String
  version : Option String
  qualifiers : Option (List (String × String))
  subpath : Option String
deriving DecidableEq

/-- `pypi_simple.PYPI_SIMPLE_ENDPOINT`. -/
def PYPI_SIMPLE_ENDPOINT : String := "https://pypi.org/simple/"

/-- A resolved dependency as assembled by `_resolve_pip` (pip/main.py lines
2222-2235): the dict fields `_generate_purl_dependency` and `fetch_pip_source`
read. -/
structure PipDependency where
  name : String
  version : String
  index_url : Option String
  kind : ReqKind
  requirement_file : String
  missing_req_file_checksum : Bool
  package_type : String
  build_dependency : Bool
deriving DecidableEq

/-- The `_version` helper of `_resolve_pip`: a PyPI dependency's version is the
pinned version; a VCS dependency's is `git+<url>@<ref>`; a URL dependency's is
the original URL with `#cachito_hash=` added. -/
def resolve_pip_version (kind : ReqKind) (pypi_version url ref url_with_hash : String) :
    String :=
  match kind with
  | .pypi => pypi_version
  | .vcs => "git+" ++ url ++ "@" ++ ref
  | .url => url_with_hash

/-- `_generate_purl_dependency`: the purl fields for a resolved dependency.
A pypi dependency carries a `repository_url` qualifier only when its index is
not the default PyPI endpoint (after stripping trailing slashes); a VCS
dependency carries a `vcs_url` qualifier with its version (the `git+<url>@<ref>`
string); a URL dependency carries the defragmented download URL and the
`cachito_hash` checksum from the fragment.  Accessing a missing `index_url` or
`cachito_hash` is a Python error, modelled as `runtimeError`. -/
def generate_purl_dependency (package : PipDependency) : Except HermetoError PackageURLData :=
  match package.kind with
  | .pypi =>
    match package.index_url with
    | none => .error (.runtimeError "AttributeError: rstrip of None")
    | some index_url =>
      let qualifiers : Option (List (String × String)) :=
        if rstrip_slash index_url ≠ rstrip_slash PYPI_SIMPLE_ENDPOINT then
          some [("repository_url", index_url)]
        else
          none
      .ok ⟨"pypi", package.name, some package.version, qualifiers, none⟩
  | .vcs =>
    .ok ⟨"pypi", package.name, none, some [("vcs_url", package.version)], none⟩
  | .url =>
    let defragmented_url := (urldefrag package.version).1
    let fragment := (urldefrag package.version).2
    match parse_qs_first fragment "cachito_hash" with
    | none => .error (.runtimeError "KeyError: cachito_hash")
    | some checksum =>
      .ok ⟨"pypi", package.name, none,
           some [("download_url", defragmented_url), ("checksum", checksum)], none⟩

/-- The `missing_hash_in_file` property set for one dependency's SBOM component
(`fetch_pip_source`, pip/main.py lines 186-188): the requirement file's path
when the requirements-file checksum is missing, else the empty set. -/
def missing_hash_in_file (dependency : PipDependency) : Finset String :=
  if dependency.missing_req_file_checksum then {dependency.requirement_file} else ∅

/-! ### Yarn-classic workspaces (yarn_classic/workspaces.py) -/

/-- A `package.json` manifest; the only attribute the embedded code reads is
the set of top-level keys (`"name" not in package_json.data`). -/
structure PackageJson where
  data_keys : List String
deriving DecidableEq

/-- The filesystem facts `extract_workspace_metadata` reads: which files exist
and the parsed content of `package.json` files.  Paths are lists of components
relative to the project root, already resolved. -/
structure YarnFS where
  file_exists : List String → Bool
  read_package_json : List String → PackageJson

/-- Modelled from the spec: `RootedPath.join_within_root`
(`hermeto.core.rooted_path`, not under src/) resolves a path against the
project root and fails when the result escapes the root.  Paths are lists of
components; `..` pops one level and popping above the root (`none`) is the
escape. -/
def resolve_within (acc : List String) : List String → Option (List String)
  | [] => some acc
  | seg :: rest =>
    if seg = ".." then
      match acc with
      | [] => none
      | _ => resolve_within acc.dropLast rest
    else if seg = "." then resolve_within acc rest
    else resolve_within (acc ++ [seg]) rest

/-- `ensure_no_path_leads_out`: `join_within_root` every path against the
source directory; the first escaping path raises. -/
def ensure_no_path_leads_out : List (List String) → Except HermetoError Unit
  | [] => .ok ()
  | p :: rest =>
    match resolve_within [] p with
    | none => .error (.pathOutsideRoot "path leads outside the source directory")
    | some _ => ensure_no_path_leads_out rest

/-- A workspace member (`Workspace` model). -/
structure Workspace where
  path : List String
  package_json : PackageJson
deriving DecidableEq

/-- The pydantic validator `_ensure_package_is_named`: constructing a
`Workspace` fails when the manifest has no `name` field. -/
def Workspace.make (path : List String) (package_json : PackageJson) :
    Except HermetoError Workspace :=
  if package_json.data_keys.contains "name" then
    .ok ⟨path, package_json⟩
  else
    .error (.valueError "Workspaces must contain 'name' field.")

/-- The member loop of `extract_workspace_metadata`: members whose
`package.json` does not exist are skipped with a warning; the others become
`Workspace`s. -/
def collect_workspaces (fs : YarnFS) : List (List String) → Except HermetoError (List Workspace)
  | [] => .ok []
  | wp :: rest =>
    match resolve_within [] (wp ++ ["package.json"]) with
    | none => .error (.pathOutsideRoot "path leads outside the source directory")
    | some pj_path =>
      if fs.file_exists pj_path then
        match Workspace.make wp (fs.read_package_json pj_path) with
        | .error e => .error e
        | .ok w =>
          match collect_workspaces fs rest with
          | .error e => .error e
          | .ok ws => .ok (w :: ws)
      else
        -- Ignore "workspaces" with missing package.json (warn, do not fail)
        collect_workspaces fs rest

/-- `extract_workspace_metadata`, from the point where the workspace member
paths have been enumerated from the `workspaces` globs (glob enumeration is
filesystem I/O, so the member paths are an input): validate that no member
path leads out of the project root, then collect the members that have their
own `package.json`. -/
def extract_workspace_metadata (fs : YarnFS) (workspaces_paths : List (List String)) :
    Except HermetoError (List Workspace) :=
  match ensure_no_path_leads_out workspaces_paths with
  | .error e => .error e
  | .ok _ => collect_workspaces fs workspaces_paths

/-! ### Concrete data used by witnesses and counterexamples -/

/-- A distribution artifact whose PyPI-reported and requirements-file checksum
sets are non-empty but disjoint. -/
def c2_dpi : DistributionPackageInfo :=
  DistributionPackageInfo.make "aiohttp" "3.9.5" "sdist" "deps/pip/aiohttp-3.9.5.tar.gz"
    "https://example.org/aiohttp-3.9.5.tar.gz" PYPI_SIMPLE_ENDPOINT false
    {⟨"sha256", "aaaa"⟩} {⟨"sha256", "bbbb"⟩}

/-- The pinned requirement `aiohttp==3.9.5 --hash=sha256:bbbb`. -/
def c2_req : PipRequirement :=
  ⟨"aiohttp", "aiohttp", [("==", "3.9.5")], ["sha256:bbbb"], [], .pypi, "aiohttp==3.9.5"⟩

/-- A PyPI sdist whose single reported digest disagrees with the declared one. -/
def c2_pkgA : PyPIDistributionPackage :=
  ⟨some "3.9.5", some "sdist", "aiohttp-3.9.5.tar.gz", "https://example.org/a.tar.gz", false,
   [("sha256", "aaaa")]⟩

/-- A PyPI sdist whose reported digest agrees with the declared one. -/
def c2_pkgB : PyPIDistributionPackage :=
  ⟨some "3.9.5", some "sdist", "aiohttp-3.9.5.zip", "https://example.org/b.zip", false,
   [("sha256", "bbbb")]⟩

/-- The dependency record `_resolve_pip` builds from a processed
`download_info` (pip/main.py lines 2222-2235); `version` is computed by the
`_version` helper and passed in. -/
def dependency_of_download_info (info : DownloadInfo) (version : String)
    (build_dependency : Bool) : PipDependency :=
  ⟨info.package, version, info.index_url, info.kind, info.requirement_file,
   info.missing_req_file_checksum, info.package_type, build_dependency⟩

/-- A wheel artifact with an expected checksum that its content does not match. -/
def c3_dpi : DistributionPackageInfo :=
  DistributionPackageInfo.make "pyarn" "0.2.0" "wheel"
    "deps/pip/pyarn-0.2.0-py3-none-any.whl" "https://example.org/pyarn.whl"
    PYPI_SIMPLE_ENDPOINT false {⟨"sha256", "cafe"⟩} {⟨"sha256", "cafe"⟩}

/-- The requirement `pyarn==0.2.0 --hash=sha256:cafe`. -/
def c3_req : PipRequirement :=
  ⟨"pyarn", "pyarn", [("==", "0.2.0")], ["sha256:cafe"], [], .pypi, "pyarn==0.2.0"⟩

/-- The download info handed to `_process_req` for `c3_dpi`. -/
def c3_info : DownloadInfo :=
  ⟨"pyarn", "0.2.0", "deps/pip/pyarn-0.2.0-py3-none-any.whl", .pypi, "", true, "", none⟩

/-- A `.tar.gz` sdist artifact with an expected checksum that its content does
not match. -/
def c3_sdist_dpi : DistributionPackageInfo :=
  DistributionPackageInfo.make "pyarn" "0.2.0" "sdist" "deps/pip/pyarn-0.2.0.tar.gz"
    "https://example.org/pyarn-0.2.0.tar.gz" PYPI_SIMPLE_ENDPOINT false
    {⟨"sha256", "cafe"⟩} {⟨"sha256", "cafe"⟩}

/-- A VCS requirement that also carries a `--hash` option. -/
def c10_req : PipRequirement :=
  ⟨"pyarn", "pyarn", [], ["sha256:abcd"], [], .vcs,
   "pyarn @ git+https://github.com/org/pyarn@aaaaaaaaaaaaaaaaaaaaaaaaaaaaaaaaaaaaaaaa"⟩

/-- The download info produced by `_download_vcs_package` for `c10_req`. -/
def c10_info : DownloadInfo :=
  ⟨"pyarn", "", "deps/pip/github.com/org/pyarn/pyarn-external-gitcommit-aaaa.tar.gz",
   .vcs, "", true, "", none⟩

/-- An unpinned PyPI requirement (`requests>=2.0`). -/
def c4_req : PipRequirement :=
  ⟨"requests", "requests", [(">=", "2.0")], [], [], .pypi, "requests>=2.0"⟩

/-- A VCS requirement using mercurial instead of git. -/
def c5_req_hg : PipRequirement :=
  ⟨"foo", "foo", [], [], [], .vcs,
   "foo @ hg+https://example.com/foo@aaaaaaaaaaaaaaaaaaaaaaaaaaaaaaaaaaaaaaaa"⟩

/-- A git VCS requirement whose URL path carries no 40-character hex ref. -/
def c5_req_noref : PipRequirement :=
  ⟨"bar", "bar", [], [], [], .vcs, "bar @ git+https://github.com/org/bar"⟩

/-- The pinned requirement `foo==1.0` with no declared hashes. -/
def c6_req : PipRequirement :=
  ⟨"foo", "foo", [("==", "1.0")], [], [], .pypi, "foo==1.0"⟩

/-- A yanked `.tar.gz` sdist of `foo 1.0`. -/
def c6_pkgA : PyPIDistributionPackage :=
  ⟨some "1.0", some "sdist", "foo-1.0.tar.gz", "https://example.org/foo-1.0.tar.gz", true, []⟩

/-- A non-yanked sdist of `foo 1.0` in a non-preferred format. -/
def c6_pkgB : PyPIDistributionPackage :=
  ⟨some "1.0", some "sdist", "foo-1.0.data", "https://example.org/foo-1.0.data", false, []⟩

/-- The `DistributionPackageInfo` built for `c6_pkgA`. -/
def c6_dpiA : DistributionPackageInfo :=
  dpi_of_pkg "foo" "1.0" PYPI_SIMPLE_ENDPOINT "deps/pip" ∅ c6_pkgA

/-- The `DistributionPackageInfo` built for `c6_pkgB`. -/
def c6_dpiB : DistributionPackageInfo :=
  dpi_of_pkg "foo" "1.0" PYPI_SIMPLE_ENDPOINT "deps/pip" ∅ c6_pkgB

/-- Strict lexicographic order on three-component preference tuples. -/
def tuple3_lt (a b : Nat × Nat × Nat) : Prop :=
  a.1 < b.1 ∨ (a.1 = b.1 ∧ (a.2.1 < b.2.1 ∨ (a.2.1 = b.2.1 ∧ a.2.2 < b.2.2)))

instance (a b : Nat × Nat × Nat) : Decidable (tuple3_lt a b) :=
  inferInstanceAs (Decidable (_ ∨ _))

/-- The sdist preference exactly as claim C6 words it, written from the claim
and not from the source (a refinement reference to compare against
`sdist_preference`): prefer candidates matching the declared checksums, then
packaging formats `.tar.gz` over `.zip` over anything else (from the artifact
filename), then non-yanked over yanked. -/
def claimed_sdist_preference (d : DistributionPackageInfo) : Nat × Nat × Nat :=
  let matches_declared : Nat :=
    if d.req_file_checksums = ∅ ∨ (d.pypi_checksums ∩ d.req_file_checksums).Nonempty then 1
    else 0
  let filename := path_basename d.path
  let filetype_pref : Nat :=
    if py_endswith filename ".tar.gz" then 2
    else if py_endswith filename ".zip" then 1
    else 0
  let yanked_pref : Nat := if d.is_yanked then 0 else 1
  (matches_declared, filetype_pref, yanked_pref)

/-- Maximum of a nonempty sdist list under the claim's preference (first
maximal element, as Python `max`). -/
def claimed_max_sdist :
    DistributionPackageInfo → List DistributionPackageInfo → DistributionPackageInfo
  | best, [] => best
  | best, y :: ys =>
    claimed_max_sdist
      (if tuple3_lt (claimed_sdist_preference best) (claimed_sdist_preference y) then y
       else best) ys

/-- A VCS dependency as assembled by `_resolve_pip`. -/
def c7_dep_vcs : PipDependency :=
  ⟨"pyarn", "git+https://github.com/org/pyarn@aaaaaaaaaaaaaaaaaaaaaaaaaaaaaaaaaaaaaaaa",
   none, .vcs, "requirements.txt", true, "", false⟩

/-- A plain-URL dependency whose version URL carries a `cachito_hash` fragment. -/
def c7_dep_url : PipDependency :=
  ⟨"baz", "https://example.org/baz-1.0.tar.gz#cachito_hash=sha256:dead", none, .url,
   "requirements.txt", false, "", false⟩

/-- A registry dependency resolved from the default PyPI endpoint. -/
def c7_dep_pypi_default : PipDependency :=
  ⟨"requests", "2.31.0", some "https://pypi.org/simple", .pypi, "requirements.txt", false,
   "sdist", false⟩

/-- A registry dependency resolved from a custom index. -/
def c7_dep_pypi_custom : PipDependency :=
  ⟨"requests", "2.31.0", some "https://mirror.example.org/simple/", .pypi,
   "requirements.txt", false, "sdist", false⟩

/-- A concrete filesystem for the workspace witness: `packages/a` has a named
`package.json`, `packages/b` has none. -/
def c8_fs : YarnFS :=
  ⟨fun p => decide (p = ["packages", "a", "package.json"]), fun _ => ⟨["name"]⟩⟩

/-- A URL requirement for `foo` with one declared hash. -/
def c9_r1 : PipRequirement :=
  ⟨"foo", "foo", [], ["sha256:abc"], [], .url,
   "foo @ https://example.org/foo-1.0.tar.gz"⟩

/-- A distinct URL requirement with the same identifying data: same package
name, same leading hash, same `.tar.gz` extension, different URL and extra
hash. -/
def c9_r2 : PipRequirement :=
  ⟨"foo", "Foo", [], ["sha256:abc", "md5:ffff"], [], .url,
   "Foo @ https://mirror.example.org/dl/foo-1.0.tar.gz"⟩

/-! ### Shared helper lemmas -/

theorem tuple_lt_trans {a b c : Nat × Nat} (h1 : tuple_lt a b) (h2 : tuple_lt b c) :
    tuple_lt a c := by
  rcases a with ⟨a1, a2⟩; rcases b with ⟨b1, b2⟩; rcases c with ⟨c1, c2⟩
  simp only [tuple_lt] at *
  omega

theorem tuple_lt_irrefl (a : Nat × Nat) : ¬ tuple_lt a a := by
  rcases a with ⟨a1, a2⟩
  simp only [tuple_lt]
  omega

theorem tuple_lt_of_lt_of_not_lt {a b c : Nat × Nat} (h1 : tuple_lt a b)
    (h2 : ¬ tuple_lt c b) : tuple_lt a c := by
  rcases a with ⟨a1, a2⟩; rcases b with ⟨b1, b2⟩; rcases c with ⟨c1, c2⟩
  simp only [tuple_lt] at *
  omega

theorem py_max_by_mem (key : DistributionPackageInfo → Nat × Nat)
    (best : DistributionPackageInfo) (l : List DistributionPackageInfo) :
    py_max_by key best l ∈ best :: l := by
  induction l generalizing best with
  | nil => simp [py_max_by]
  | cons y ys ih =>
    rw [py_max_by]
    by_cases hlt : tuple_lt (key best) (key y)
    · rw [if_pos hlt]
      rcases List.mem_cons.mp (ih y) with h | h
      · rw [h]; exact List.mem_cons.mpr (Or.inr (List.mem_cons_self _ _))
      · exact List.mem_cons.mpr (Or.inr (List.mem_cons.mpr (Or.inr h)))
    · rw [if_neg hlt]
      rcases List.mem_cons.mp (ih best) with h | h
      · rw [h]; exact List.mem_cons_self _ _
      · exact List.mem_cons.mpr (Or.inr (List.mem_cons.mpr (Or.inr h)))

theorem py_max_by_not_lt (key : DistributionPackageInfo → Nat × Nat)
    (best : DistributionPackageInfo) (l : List DistributionPackageInfo) :
    ∀ z ∈ best :: l, ¬ tuple_lt (key (py_max_by key best l)) (key z) := by
  induction l generalizing best with
  | nil =>
    intro z hz
    rcases List.mem_cons.mp hz with h | h
    · subst h; rw [py_max_by]; exact tuple_lt_irrefl _
    · simp at h
  | cons y ys ih =>
    intro z hz
    rw [py_max_by]
    by_cases hlt : tuple_lt (key best) (key y)
    · rw [if_pos hlt]
      rcases List.mem_cons.mp hz with h | h
      · subst h
        intro hcon
        exact ih y y (List.mem_cons_self y ys) (tuple_lt_trans hcon hlt)
      · rcases List.mem_cons.mp h with h' | h'
        · subst h'; exact ih z z (List.mem_cons_self z ys)
        · exact ih y z (List.mem_cons.mpr (Or.inr h'))
    · rw [if_neg hlt]
      rcases List.mem_cons.mp hz with h | h
      · subst h; exact ih z z (List.mem_cons_self z ys)
      · rcases List.mem_cons.mp h with h' | h'
        · subst h'
          intro hcon
          exact (ih best best (List.mem_cons_self best ys))
            (tuple_lt_of_lt_of_not_lt hcon hlt)
        · exact ih best z (List.mem_cons.mpr (Or.inr h'))

/-- An `if c then error else ok` expression equal to `.ok result` takes the
else branch. -/
theorem ite_error_eq_ok {α : Type} {c : Prop} [Decidable c] {e : HermetoError}
    {l result : α}
    (h : (if c then (.error e : Except HermetoError α) else .ok l) = .ok result) :
    l = result := by
  split at h
  · simp at h
  · simpa using h

/-- Every artifact `_process_package_distributions` returns passed the
`should_download` filter. -/
theorem process_ok_should_download (canonicalize_version : String → String)
    (req : PipRequirement) (packages : List PyPIDistributionPackage)
    (allow_binary : Bool) (index_url pip_deps_dir : String)
    (result : List DistributionPackageInfo)
    (h : process_package_distributions canonicalize_version req packages allow_binary
      index_url pip_deps_dir = .ok result) :
    ∀ d ∈ result, d.should_download = true := by
  intro d hd
  simp only [process_package_distributions] at h
  split at h
  · exact absurd h (by simp)
  · rename_i op version rest hv
    split at h
    · rename_i best rests hs
      rw [Except.ok.injEq] at h
      subst h
      rcases List.mem_cons.mp hd with h' | h'
      · have hm := py_max_by_mem sdist_preference best rests
        rw [← hs] at hm
        have := List.mem_filter.mp ((h' ▸ hm))
        exact (Bool.and_eq_true _ _ ▸ this.2).1
      · have := List.mem_filter.mp h'
        exact (Bool.and_eq_true _ _ ▸ this.2).1
    · rename_i hs
      have hres := ite_error_eq_ok h
      subst hres
      have := List.mem_filter.mp hd
      exact (Bool.and_eq_true _ _ ▸ this.2).1

/-- Decidable equality for `Except` results, so that concrete runs of the
embedded functions can be checked by `decide`. -/
instance exceptDecEq {α β : Type} [DecidableEq α] [DecidableEq β] : DecidableEq (Except α β)
  | .ok x, .ok y =>
    if h : x = y then .isTrue (congrArg Except.ok h)
    else .isFalse (fun hc => h (Except.ok.inj hc))
  | .error x, .error y =>
    if h : x = y then .isTrue (congrArg Except.error h)
    else .isFalse (fun hc => h (Except.error.inj hc))
  | .ok _, .error _ => .isFalse (fun hc => Except.noConfusion hc)
  | .error _, .ok _ => .isFalse (fun hc => Except.noConfusion hc)

/-! ### Claim C1 -/

/-- Claim C1: for every `DistributionPackageInfo`, the set of checksums to
verify equals the intersection of the PyPI-reported and the requirements-file
checksums when both are non-empty, equals whichever of the two is non-empty
when exactly one is, and is empty when both are empty. -/
theorem c1_checksums_to_match_policy
    (name version package_type path url index_url : String) (is_yanked : Bool)
    (p r : Finset ChecksumInfo) :
    ((DistributionPackageInfo.make name version package_type path url index_url
        is_yanked p r).checksums_to_match = determine_checksums_to_match p r) ∧
    (p.Nonempty → r.Nonempty → determine_checksums_to_match p r = p ∩ r) ∧
    (p.Nonempty → r = ∅ → determine_checksums_to_match p r = p) ∧
    (p = ∅ → r.Nonempty → determine_checksums_to_match p r = r) ∧
    (p = ∅ → r = ∅ → determine_checksums_to_match p r = ∅) := by
  refine ⟨rfl, fun h1 h2 => ?_, fun h1 h2 => ?_, fun h1 h2 => ?_, fun h1 h2 => ?_⟩ <;>
    simp [determine_checksums_to_match, h1, h2, Finset.not_nonempty_empty]

/-- Witness for C1 at concrete checksum sets exercising the intersection case. -/
theorem c1_checksums_to_match_policy_witness :
    determine_checksums_to_match {⟨"sha256", "aa"⟩, ⟨"sha256", "bb"⟩} {⟨"sha256", "bb"⟩} =
      ({⟨"sha256", "bb"⟩} : Finset ChecksumInfo) := by
  have h := (c1_checksums_to_match_policy "aiohttp" "3.9.5" "sdist" "p" "u" "i" false
    {⟨"sha256", "aa"⟩, ⟨"sha256", "bb"⟩} {⟨"sha256", "bb"⟩}).2.1
  rw [h (by decide) (by decide)]
  decide

/-! ### Claim C2 -/

/-- Claim C2 as stated is false: for an artifact whose PyPI-reported and
requirements-file checksum sets are non-empty but disjoint, the engine does
not download the artifact — `should_download()` is False and
`_process_package_distributions` filters it out of its result (here the
disjoint sdist `c2_pkgA` is dropped and only the matching `c2_pkgB` survives). -/
theorem c2_counterexample :
    c2_dpi.pypi_checksums.Nonempty ∧ c2_dpi.req_file_checksums.Nonempty ∧
      c2_dpi.pypi_checksums ∩ c2_dpi.req_file_checksums = ∅ ∧
      c2_dpi.should_download = false ∧
      process_package_distributions id c2_req [c2_pkgA, c2_pkgB] false PYPI_SIMPLE_ENDPOINT
          "deps/pip" =
        .ok [dpi_of_pkg "aiohttp" "3.9.5" PYPI_SIMPLE_ENDPOINT "deps/pip"
          {⟨"sha256", "bbbb"⟩} c2_pkgB] := by
  decide

/-- Claim C2 amended: when both checksum sets are non-empty but disjoint, the
artifact is not accepted for download: `should_download()` returns False, and
`_process_package_distributions` never includes such an artifact in its result
(every returned artifact passed `should_download`); the disagreement raises no
error — the artifact is skipped with only a log message. -/
theorem c2_amended_disjoint_checksums_skip
    (name version package_type path url index_url : String) (is_yanked : Bool)
    (p r : Finset ChecksumInfo)
    (hp : p.Nonempty) (hr : r.Nonempty) (hdisj : p ∩ r = ∅) :
    (DistributionPackageInfo.make name version package_type path url index_url
        is_yanked p r).should_download = false ∧
    (∀ (canonicalize_version : String → String) (req : PipRequirement)
      (packages : List PyPIDistributionPackage) (allow_binary : Bool)
      (iu dir : String) (result : List DistributionPackageInfo),
      process_package_distributions canonicalize_version req packages allow_binary iu dir =
        .ok result →
      ∀ d ∈ result, d.should_download = true) := by
  constructor
  · have hm : determine_checksums_to_match p r = p ∩ r := by
      simp [determine_checksums_to_match, hp, hr]
    have hp' : p ≠ ∅ := Finset.nonempty_iff_ne_empty.mp hp
    have hr' : r ≠ ∅ := Finset.nonempty_iff_ne_empty.mp hr
    simp [DistributionPackageInfo.should_download, DistributionPackageInfo.make, hm, hdisj,
      Finset.card_eq_zero, hp', hr']
  · intro canonicalize_version req packages allow_binary iu dir result h
    exact process_ok_should_download canonicalize_version req packages allow_binary iu dir
      result h

/-- Witness for the amended C2 at a concrete disjoint artifact. -/
theorem c2_amended_disjoint_checksums_skip_witness :
    (DistributionPackageInfo.make "aiohttp" "3.9.5" "sdist" "deps/pip/aiohttp-3.9.5.tar.gz"
      "https://example.org/aiohttp-3.9.5.tar.gz" PYPI_SIMPLE_ENDPOINT false
      {⟨"sha256", "aaaa"⟩} {⟨"sha256", "bbbb"⟩}).should_download = false :=
  (c2_amended_disjoint_checksums_skip "aiohttp" "3.9.5" "sdist"
    "deps/pip/aiohttp-3.9.5.tar.gz" "https://example.org/aiohttp-3.9.5.tar.gz"
    PYPI_SIMPLE_ENDPOINT false {⟨"sha256", "aaaa"⟩} {⟨"sha256", "bbbb"⟩}
    (by decide) (by decide) (by decide)).1

/-! ### Claim C3 -/

/-- Claim C3 as stated is false: for a downloaded artifact with a non-empty
set of checksums to verify none of which matches the content, `_process_req`
deletes the file but raises no rejection error — the result is `.ok` (with
`artifact_kept = false`), not an error, so the failure is not fatal. -/
theorem c3_counterexample :
    c3_dpi.checksums_to_match.Nonempty ∧
    process_req (fun _ => "dead") [] c3_req "requirements.txt" c3_info (some c3_dpi) =
      .ok ⟨⟨"pyarn", "0.2.0", "deps/pip/pyarn-0.2.0-py3-none-any.whl", .pypi,
            "requirements.txt", false, "wheel", some PYPI_SIMPLE_ENDPOINT⟩, false⟩ := by
  decide

/-- Claim C3 amended: for every downloaded artifact with a non-empty set of
checksums to verify, if no expected checksum matches the artifact's content,
the artifact file is deleted from the output cache (never left half-verified)
and a warning is logged, but no rejection error naming the artifact is raised:
`_checksum_must_match_or_path_unlink` catches and swallows the
`PackageRejected` from the checksum layer.  For a wheel, `_process_req` then
returns normally, so the failure is not fatal; for a zip/tar sdist the
subsequent metadata check opens the just-deleted file and an uncaught
`FileNotFoundError` propagates — a crash, not the claimed rejection error. -/
theorem c3_amended_mismatch_unlinks_and_swallows_rejection (digestOf : String → String)
    (sdist_members : List String) (req : PipRequirement) (rf : String)
    (info : DownloadInfo) (d : DistributionPackageInfo)
    (hne : d.has_checksums_to_match = true)
    (hmiss : ∀ c ∈ d.checksums_to_match, digestOf c.algorithm ≠ c.digest) :
    checksum_must_match_or_path_unlink digestOf d.checksums_to_match = false ∧
    (d.package_type = "wheel" →
      ∃ pr, process_req digestOf sdist_members req rf info (some d) = .ok pr ∧
        pr.artifact_kept = false) ∧
    (d.package_type = "sdist" →
      sdist_check_opens_file (path_basename d.path) = true →
      process_req digestOf sdist_members req rf info (some d) =
        .error (.runtimeError "FileNotFoundError: no such file or directory")) := by
  have hmm : must_match_any_checksum digestOf d.checksums_to_match =
      .error (.packageRejected "checksum mismatch" none) := by
    rw [must_match_any_checksum, if_neg]
    rintro ⟨c, hc, he⟩
    exact hmiss c hc he
  have hw : checksum_must_match_or_path_unlink digestOf d.checksums_to_match = false := by
    rw [checksum_must_match_or_path_unlink, hmm]
  refine ⟨hw, fun hwheel => ?_, fun hsdist hopens => ?_⟩
  · simp only [process_req]
    rw [if_pos hne, hw, if_neg (by rw [hwheel]; decide)]
    exact ⟨_, rfl, rfl⟩
  · simp only [process_req]
    rw [if_pos hne, hw, if_pos hsdist, check_metadata_in_sdist, if_pos hopens]
    rfl

/-- Witness for the amended C3: a concrete mismatching wheel is removed and
processed without error, while a concrete mismatching sdist is removed and
then crashes the processing with `FileNotFoundError`. -/
theorem c3_amended_mismatch_unlinks_and_swallows_rejection_witness :
    checksum_must_match_or_path_unlink (fun _ => "dead") c3_dpi.checksums_to_match = false ∧
    (∃ pr, process_req (fun _ => "dead") [] c3_req "requirements.txt" c3_info
        (some c3_dpi) = .ok pr ∧ pr.artifact_kept = false) ∧
    process_req (fun _ => "dead") [] c3_req "requirements.txt" c3_info
        (some c3_sdist_dpi) =
      .error (.runtimeError "FileNotFoundError: no such file or directory") :=
  ⟨(c3_amended_mismatch_unlinks_and_swallows_rejection (fun _ => "dead") [] c3_req
      "requirements.txt" c3_info c3_dpi (by decide) (by decide)).1,
   (c3_amended_mismatch_unlinks_and_swallows_rejection (fun _ => "dead") [] c3_req
      "requirements.txt" c3_info c3_dpi (by decide) (by decide)).2.1 (by decide),
   (c3_amended_mismatch_unlinks_and_swallows_rejection (fun _ => "dead") [] c3_req
      "requirements.txt" c3_info c3_sdist_dpi (by decide) (by decide)).2.2 (by decide)
     (by decide)⟩

/-! ### Claim C10 -/

/-- Claim C10: every VCS-kind dependency is processed with
`missing_req_file_checksum = true` (a requirements-file hash is never credited
to a VCS dependency, even when `--hash` options are present), so the emitted
component's missing-hash property always carries the requirement file's path. -/
theorem c10_vcs_always_missing_req_file_checksum (digestOf : String → String)
    (sdist_members : List String) (req : PipRequirement) (rf : String)
    (info : DownloadInfo) (hkind : req.kind = .vcs) :
    ∃ pr, process_req digestOf sdist_members req rf info none = .ok pr ∧
      pr.info.missing_req_file_checksum = true ∧
      pr.info.requirement_file = rf ∧
      ∀ (version : String) (build_dependency : Bool),
        missing_hash_in_file (dependency_of_download_info pr.info version build_dependency) =
          {rf} := by
  simp only [process_req, hkind]
  exact ⟨_, rfl, rfl, rfl, fun version build_dependency => by
    simp [missing_hash_in_file, dependency_of_download_info]⟩

/-- Witness for C10: a concrete VCS requirement that even carries a `--hash`
option is still reported as missing its requirements-file checksum. -/
theorem c10_vcs_always_missing_req_file_checksum_witness :
    ∃ pr, process_req (fun _ => "") [] c10_req "requirements.txt" c10_info none = .ok pr ∧
      pr.info.missing_req_file_checksum = true ∧
      pr.info.requirement_file = "requirements.txt" ∧
      ∀ (version : String) (build_dependency : Bool),
        missing_hash_in_file (dependency_of_download_info pr.info version build_dependency) =
          {"requirements.txt"} :=
  c10_vcs_always_missing_req_file_checksum (fun _ => "") [] c10_req "requirements.txt"
    c10_info rfl

/-- When a requirements list validates successfully, every requirement in it
validates successfully. -/
theorem validate_requirements_ok_of_mem (requirements : List PipRequirement)
    (allow_binary : Bool)
    (h : validate_requirements requirements allow_binary = .ok ()) :
    ∀ r ∈ requirements, validate_requirement allow_binary r = .ok () := by
  induction requirements with
  | nil => intro r hr; simp at hr
  | cons q rest ih =>
    intro r hr
    rw [validate_requirements] at h
    rcases hq : validate_requirement allow_binary q with e | u
    · rw [hq] at h; exact absurd h (by simp)
    · rw [hq] at h
      rcases List.mem_cons.mp hr with h' | h'
      · subst h'; rcases u; exact hq
      · exact ih h r h'

/-! ### Claim C4 -/

/-- Claim C4: every PyPI-kind requirement that does not have exactly one
version specifier with operator `==` or `===` makes validation raise a fatal
`PackageRejected` (with a human-readable cause and a suggested remediation),
so any unpinned pip requirement aborts resolution. -/
theorem c4_unpinned_pypi_requirement_rejected (allow_binary : Bool)
    (requirements : List PipRequirement) (req : PipRequirement)
    (hmem : req ∈ requirements) (hkind : req.kind = .pypi)
    (hunpinned : ¬ (req.version_specs.length = 1 ∧
      (req.version_specs.headD ("", "")).1 ∈ (["==", "==="] : List String))) :
    validate_requirements [req] allow_binary =
      .error (.packageRejected
        ("Requirement must be pinned to an exact version: " ++ req.download_line)
        (some ("Please pin all packages as <name>==<version>\n" ++
          "You may wish to use a tool such as pip-compile to pin automatically."))) ∧
    validate_requirements requirements allow_binary ≠ .ok () := by
  have hval : validate_requirement allow_binary req =
      .error (.packageRejected
        ("Requirement must be pinned to an exact version: " ++ req.download_line)
        (some ("Please pin all packages as <name>==<version>\n" ++
          "You may wish to use a tool such as pip-compile to pin automatically."))) := by
    simp only [validate_requirement, hkind]
    rw [if_pos (not_and_or.mp hunpinned)]
  constructor
  · rw [validate_requirements, hval]
  · intro hok
    have := validate_requirements_ok_of_mem requirements allow_binary hok req hmem
    rw [hval] at this
    exact absurd this (by simp)

/-- Witness for C4: the unpinned requirement `requests>=2.0` is rejected. -/
theorem c4_unpinned_pypi_requirement_rejected_witness :
    validate_requirements [c4_req] false =
      .error (.packageRejected
        ("Requirement must be pinned to an exact version: " ++ c4_req.download_line)
        (some ("Please pin all packages as <name>==<version>\n" ++
          "You may wish to use a tool such as pip-compile to pin automatically."))) :=
  (c4_unpinned_pypi_requirement_rejected false [c4_req] c4_req (by decide) rfl
    (by decide)).1

/-! ### Claim C5 -/

/-- Claim C5: for every VCS-kind requirement, validation raises
`UnsupportedFeature` (distinct from input rejection) when the URL scheme is
not git-based, and raises `PackageRejected` when a git URL's path does not end
with a 40-character hexadecimal commit ref; both are fatal for the whole
requirements list. -/
theorem c5_vcs_requirement_validation (allow_binary : Bool)
    (requirements : List PipRequirement) (req : PipRequirement)
    (hmem : req ∈ requirements) (hkind : req.kind = .vcs) :
    (py_startswith (urlparse req.url).scheme "git" = false →
      validate_requirements [req] allow_binary =
        .error (.unsupportedFeature ("Unsupported VCS for " ++ req.download_line ++ ": " ++
          (urlparse req.url).scheme ++ " (only git is supported)")) ∧
      validate_requirements requirements allow_binary ≠ .ok ()) ∧
    (py_startswith (urlparse req.url).scheme "git" = true →
      git_ref_in_path (urlparse req.url).path = false →
      validate_requirements [req] allow_binary =
        .error (.packageRejected
          ("No git ref in " ++ req.download_line ++ " (expected 40 hexadecimal characters)")
          (some "Please specify the full commit hash for git URLs or switch to https URLs.")) ∧
      validate_requirements requirements allow_binary ≠ .ok ()) := by
  constructor
  · intro hscheme
    have hval : validate_requirement allow_binary req =
        .error (.unsupportedFeature ("Unsupported VCS for " ++ req.download_line ++ ": " ++
          (urlparse req.url).scheme ++ " (only git is supported)")) := by
      simp only [validate_requirement, hkind, hscheme, Bool.not_false, if_true]
    refine ⟨by rw [validate_requirements, hval], fun hok => ?_⟩
    have := validate_requirements_ok_of_mem requirements allow_binary hok req hmem
    rw [hval] at this
    exact absurd this (by simp)
  · intro hscheme href
    have hval : validate_requirement allow_binary req =
        .error (.packageRejected
          ("No git ref in " ++ req.download_line ++ " (expected 40 hexadecimal characters)")
          (some "Please specify the full commit hash for git URLs or switch to https URLs.")) := by
      simp [validate_requirement, hkind, hscheme, href]
    refine ⟨by rw [validate_requirements, hval], fun hok => ?_⟩
    have := validate_requirements_ok_of_mem requirements allow_binary hok req hmem
    rw [hval] at this
    exact absurd this (by simp)

/-- Witness for C5: a mercurial requirement raises `UnsupportedFeature`, and a
git requirement without a full-length ref raises `PackageRejected`. -/
theorem c5_vcs_requirement_validation_witness :
    validate_requirements [c5_req_hg] false =
      .error (.unsupportedFeature ("Unsupported VCS for " ++ c5_req_hg.download_line ++ ": " ++
        (urlparse c5_req_hg.url).scheme ++ " (only git is supported)")) ∧
    validate_requirements [c5_req_noref] false =
      .error (.packageRejected
        ("No git ref in " ++ c5_req_noref.download_line ++
          " (expected 40 hexadecimal characters)")
        (some "Please specify the full commit hash for git URLs or switch to https URLs.")) :=
  ⟨((c5_vcs_requirement_validation false [c5_req_hg] c5_req_hg (by decide) rfl).1
      (by decide)).1,
   ((c5_vcs_requirement_validation false [c5_req_noref] c5_req_noref (by decide) rfl).2
      (by decide) (by decide)).1⟩

/-! ### Claim C6 -/

/-- Claim C6 as stated is false: the source orders sdist candidates by
non-yanked **before** packaging format (and computes the format preference
from the package name, not the artifact filename), while the claim puts the
format precedence before yankedness.  For a yanked `.tar.gz` sdist versus a
non-yanked sdist of another format, the claim's order selects the former but
`_process_package_distributions` selects the latter. -/
theorem c6_counterexample :
    process_package_distributions id c6_req [c6_pkgA, c6_pkgB] false PYPI_SIMPLE_ENDPOINT
        "deps/pip" = .ok [c6_dpiB] ∧
    claimed_max_sdist c6_dpiA [c6_dpiB] = c6_dpiA ∧
    c6_dpiA ≠ c6_dpiB := by
  decide

/-- Claim C6 amended: when sdist candidates exist (after excluding artifacts
whose declared and PyPI-reported checksums disagree — those fail
`should_download` and are filtered out, not merely dispreferred), the single
selected sdist is the first maximal candidate under `_sdist_preference`:
non-yanked over yanked first, then `.tar.gz` over `.zip` over anything else
computed from the `name` field; all surviving wheels are appended after it. -/
theorem c6_amended_sdist_selection (canonicalize_version : String → String)
    (req : PipRequirement) (packages : List PyPIDistributionPackage)
    (allow_binary : Bool) (index_url pip_deps_dir : String)
    (op version : String) (rest : List (String × String))
    (hv : req.version_specs = (op, version) :: rest)
    (hne : eligible_sdists canonicalize_version req.package version
        ((req.hashes.map to_checksum_info).toFinset)
        (if allow_binary then ["sdist", "wheel"] else ["sdist"]) packages index_url
        pip_deps_dir ≠ []) :
    ∃ best,
      process_package_distributions canonicalize_version req packages allow_binary index_url
          pip_deps_dir =
        .ok (best :: eligible_wheels canonicalize_version req.package version
          ((req.hashes.map to_checksum_info).toFinset)
          (if allow_binary then ["sdist", "wheel"] else ["sdist"]) packages index_url
          pip_deps_dir) ∧
      best ∈ eligible_sdists canonicalize_version req.package version
        ((req.hashes.map to_checksum_info).toFinset)
        (if allow_binary then ["sdist", "wheel"] else ["sdist"]) packages index_url
        pip_deps_dir ∧
      (∀ s ∈ eligible_sdists canonicalize_version req.package version
          ((req.hashes.map to_checksum_info).toFinset)
          (if allow_binary then ["sdist", "wheel"] else ["sdist"]) packages index_url
          pip_deps_dir,
        ¬ tuple_lt (sdist_preference best) (sdist_preference s)) ∧
      (∀ s ∈ eligible_sdists canonicalize_version req.package version
          ((req.hashes.map to_checksum_info).toFinset)
          (if allow_binary then ["sdist", "wheel"] else ["sdist"]) packages index_url
          pip_deps_dir,
        s.should_download = true ∧ s.package_type = "sdist") := by
  rcases hs : eligible_sdists canonicalize_version req.package version
      ((req.hashes.map to_checksum_info).toFinset)
      (if allow_binary then ["sdist", "wheel"] else ["sdist"]) packages index_url
      pip_deps_dir with _ | ⟨b, bs⟩
  · exact absurd hs hne
  · refine ⟨py_max_by sdist_preference b bs, ?_, ?_, ?_, ?_⟩
    · simp only [process_package_distributions, hv, hs]
    · exact py_max_by_mem sdist_preference b bs
    · exact py_max_by_not_lt sdist_preference b bs
    · intro s hsmem
      rw [← hs] at hsmem
      have := List.mem_filter.mp hsmem
      have h2 := Bool.and_eq_true _ _ ▸ this.2
      exact ⟨h2.1, by simpa using h2.2⟩

/-- Witness for the amended C6 at the concrete candidate pair of the
counterexample. -/
theorem c6_amended_sdist_selection_witness :
    ∃ best,
      process_package_distributions id c6_req [c6_pkgA, c6_pkgB] false PYPI_SIMPLE_ENDPOINT
          "deps/pip" =
        .ok (best :: eligible_wheels id c6_req.package "1.0"
          ((c6_req.hashes.map to_checksum_info).toFinset)
          (if false then ["sdist", "wheel"] else ["sdist"]) [c6_pkgA, c6_pkgB]
          PYPI_SIMPLE_ENDPOINT "deps/pip") ∧
      best ∈ eligible_sdists id c6_req.package "1.0"
        ((c6_req.hashes.map to_checksum_info).toFinset)
        (if false then ["sdist", "wheel"] else ["sdist"]) [c6_pkgA, c6_pkgB]
        PYPI_SIMPLE_ENDPOINT "deps/pip" ∧
      (∀ s ∈ eligible_sdists id c6_req.package "1.0"
          ((c6_req.hashes.map to_checksum_info).toFinset)
          (if false then ["sdist", "wheel"] else ["sdist"]) [c6_pkgA, c6_pkgB]
          PYPI_SIMPLE_ENDPOINT "deps/pip",
        ¬ tuple_lt (sdist_preference best) (sdist_preference s)) ∧
      (∀ s ∈ eligible_sdists id c6_req.package "1.0"
          ((c6_req.hashes.map to_checksum_info).toFinset)
          (if false then ["sdist", "wheel"] else ["sdist"]) [c6_pkgA, c6_pkgB]
          PYPI_SIMPLE_ENDPOINT "deps/pip",
        s.should_download = true ∧ s.package_type = "sdist") :=
  c6_amended_sdist_selection id c6_req [c6_pkgA, c6_pkgB] false PYPI_SIMPLE_ENDPOINT
    "deps/pip" "==" "1.0" [] rfl (by decide)

/-! ### Claim C7 -/

/-- Claim C7: the generated purl for a resolved dependency carries qualifiers
exactly as follows — a VCS dependency carries a `vcs_url` qualifier with its
upstream VCS URL (its `git+<repo-url>@<ref>` version); a plain-URL dependency
carries the defragmented download URL and its `cachito_hash` content checksum;
a registry dependency carries a `repository_url` qualifier only when its index
is not the default PyPI endpoint, and otherwise qualifiers are omitted
entirely (`none`, never empty strings). -/
theorem c7_purl_dependency_qualifiers (dep : PipDependency) :
    (dep.kind = .vcs → generate_purl_dependency dep =
      .ok ⟨"pypi", dep.name, none, some [("vcs_url", dep.version)], none⟩) ∧
    (dep.kind = .url →
      ∀ cs, parse_qs_first (urldefrag dep.version).2 "cachito_hash" = some cs →
      generate_purl_dependency dep =
        .ok ⟨"pypi", dep.name, none,
          some [("download_url", (urldefrag dep.version).1), ("checksum", cs)], none⟩) ∧
    (dep.kind = .pypi → ∀ iu, dep.index_url = some iu →
      (rstrip_slash iu = rstrip_slash PYPI_SIMPLE_ENDPOINT →
        generate_purl_dependency dep = .ok ⟨"pypi", dep.name, some dep.version, none, none⟩) ∧
      (rstrip_slash iu ≠ rstrip_slash PYPI_SIMPLE_ENDPOINT →
        generate_purl_dependency dep =
          .ok ⟨"pypi", dep.name, some dep.version, some [("repository_url", iu)], none⟩)) := by
  refine ⟨fun hk => ?_, fun hk cs hcs => ?_, fun hk iu hiu => ⟨fun heq => ?_, fun hne => ?_⟩⟩
  · simp only [generate_purl_dependency, hk]
  · simp only [generate_purl_dependency, hk, hcs]
  · simp only [generate_purl_dependency, hk, hiu]
    rw [if_neg (fun hc => hc heq)]
  · simp only [generate_purl_dependency, hk, hiu]
    rw [if_pos hne]

/-- Witness for C7 at one concrete dependency of each kind. -/
theorem c7_purl_dependency_qualifiers_witness :
    generate_purl_dependency c7_dep_vcs =
      .ok ⟨"pypi", c7_dep_vcs.name, none, some [("vcs_url", c7_dep_vcs.version)], none⟩ ∧
    generate_purl_dependency c7_dep_url =
      .ok ⟨"pypi", c7_dep_url.name, none,
        some [("download_url", (urldefrag c7_dep_url.version).1),
              ("checksum", "sha256:dead")], none⟩ ∧
    generate_purl_dependency c7_dep_pypi_default =
      .ok ⟨"pypi", c7_dep_pypi_default.name, some c7_dep_pypi_default.version, none, none⟩ ∧
    generate_purl_dependency c7_dep_pypi_custom =
      .ok ⟨"pypi", c7_dep_pypi_custom.name, some c7_dep_pypi_custom.version,
        some [("repository_url", "https://mirror.example.org/simple/")], none⟩ :=
  ⟨(c7_purl_dependency_qualifiers c7_dep_vcs).1 rfl,
   (c7_purl_dependency_qualifiers c7_dep_url).2.1 rfl "sha256:dead" (by decide),
   ((c7_purl_dependency_qualifiers c7_dep_pypi_default).2.2 rfl
     "https://pypi.org/simple" rfl).1 (by decide),
   ((c7_purl_dependency_qualifiers c7_dep_pypi_custom).2.2 rfl
     "https://mirror.example.org/simple/" rfl).2 (by decide)⟩

/-! ### Claim C8 -/

/-- Path resolution processes segments left to right, so it distributes over
append. -/
theorem resolve_within_append (l1 l2 : List String) (acc : List String) :
    resolve_within acc (l1 ++ l2) =
      (resolve_within acc l1).bind (fun acc2 => resolve_within acc2 l2) := by
  induction l1 generalizing acc with
  | nil => simp [resolve_within]
  | cons seg rest ih =>
    by_cases h1 : seg = ".."
    · subst h1
      cases acc with
      | nil => simp [resolve_within]
      | cons a as => simp [resolve_within, ih]
    · by_cases h2 : seg = "."
      · subst h2
        simp [resolve_within, ih]
      · simp [resolve_within, h1, h2, ih]

theorem ensure_ok_iff (paths : List (List String)) :
    ensure_no_path_leads_out paths = .ok () ↔
      ∀ p ∈ paths, (resolve_within [] p).isSome := by
  induction paths with
  | nil => simp [ensure_no_path_leads_out]
  | cons p rest ih =>
    rw [ensure_no_path_leads_out]
    rcases hp : resolve_within [] p with _ | acc
    · simp [hp]
    · simp [hp, ih]

theorem ensure_error_of_escape (paths : List (List String))
    (h : ∃ p ∈ paths, resolve_within [] p = none) :
    ensure_no_path_leads_out paths =
      .error (.pathOutsideRoot "path leads outside the source directory") := by
  induction paths with
  | nil => simp at h
  | cons p rest ih =>
    rw [ensure_no_path_leads_out]
    rcases hp : resolve_within [] p with _ | acc
    · rfl
    · rcases h with ⟨q, hq, hnone⟩
      rcases List.mem_cons.mp hq with h' | h'
      · subst h'; rw [hp] at hnone; exact absurd hnone (by simp)
      · exact ih ⟨q, h', hnone⟩

/-- Constructing a workspace keeps the given path. -/
theorem workspace_make_path (p : List String) (pj : PackageJson) (w : Workspace)
    (h : Workspace.make p pj = .ok w) : w.path = p ∧ w.package_json = pj := by
  rw [Workspace.make] at h
  split at h
  · rcases Except.ok.inj h with rfl
    exact ⟨rfl, rfl⟩
  · exact absurd h (by simp)

/-- Every workspace collected comes from a listed member path whose
`package.json` exists. -/
theorem collect_workspaces_ok_mem (fs : YarnFS) (l : List (List String))
    (ws : List Workspace) (h : collect_workspaces fs l = .ok ws) :
    ∀ w ∈ ws, w.path ∈ l ∧
      ∃ rp, resolve_within [] (w.path ++ ["package.json"]) = some rp ∧
        fs.file_exists rp = true := by
  induction l generalizing ws with
  | nil =>
    rw [collect_workspaces] at h
    rcases Except.ok.inj h with rfl
    intro w hw
    simp at hw
  | cons wp rest ih =>
    rw [collect_workspaces] at h
    rcases hr : resolve_within [] (wp ++ ["package.json"]) with _ | rp <;> rw [hr] at h <;>
      dsimp only at h
    · exact absurd h (by simp)
    · by_cases hex : fs.file_exists rp = true
      · rw [if_pos hex] at h
        rcases hmk : Workspace.make wp (fs.read_package_json rp) with e | w0 <;>
          rw [hmk] at h <;> dsimp only at h
        · exact absurd h (by simp)
        · rcases hcol : collect_workspaces fs rest with e | ws' <;> rw [hcol] at h <;>
            dsimp only at h
          · exact absurd h (by simp)
          · rcases Except.ok.inj h with rfl
            intro w hw
            rcases List.mem_cons.mp hw with h' | h'
            · subst h'
              rcases workspace_make_path wp (fs.read_package_json rp) w hmk with ⟨hp, _⟩
              rw [hp]
              exact ⟨List.mem_cons_self _ _, rp, hr, hex⟩
            · rcases ih ws' hcol w h' with ⟨hmem, hrest⟩
              exact ⟨List.mem_cons.mpr (Or.inr hmem), hrest⟩
      · rw [if_neg hex] at h
        intro w hw
        rcases ih ws h w hw with ⟨hmem, hrest⟩
        exact ⟨List.mem_cons.mpr (Or.inr hmem), hrest⟩

/-- A member whose `package.json` is missing is never collected. -/
theorem collect_workspaces_excludes (fs : YarnFS) (l : List (List String))
    (ws : List Workspace) (h : collect_workspaces fs l = .ok ws)
    (p : List String) (rp : List String)
    (hrp : resolve_within [] (p ++ ["package.json"]) = some rp)
    (hnot : fs.file_exists rp = false) : p ∉ ws.map Workspace.path := by
  intro hcon
  rcases List.mem_map.mp hcon with ⟨w, hw, hwp⟩
  rcases collect_workspaces_ok_mem fs l ws h w hw with ⟨_, rq, hrq, hex⟩
  rw [hwp, hrp] at hrq
  rcases Option.some.inj hrq with rfl
  rw [hex] at hnot
  exact absurd hnot (by simp)

/-- Collection succeeds when every listed member's `package.json` path
resolves and every existing manifest is named. -/
theorem collect_workspaces_total (fs : YarnFS) (l : List (List String))
    (hsome : ∀ p ∈ l, (resolve_within [] (p ++ ["package.json"])).isSome)
    (hnamed : ∀ p ∈ l, ∀ rp, resolve_within [] (p ++ ["package.json"]) = some rp →
      fs.file_exists rp = true →
      (fs.read_package_json rp).data_keys.contains "name" = true) :
    ∃ ws, collect_workspaces fs l = .ok ws := by
  induction l with
  | nil => exact ⟨[], rfl⟩
  | cons wp rest ih =>
    rcases ih (fun p hp => hsome p (List.mem_cons.mpr (Or.inr hp)))
      (fun p hp => hnamed p (List.mem_cons.mpr (Or.inr hp))) with ⟨ws', hws'⟩
    rcases hr : resolve_within [] (wp ++ ["package.json"]) with _ | rp
    · have := hsome wp (List.mem_cons_self _ _)
      rw [hr] at this
      exact absurd this (by simp)
    · rw [collect_workspaces]
      rw [hr]
      dsimp only
      by_cases hex : fs.file_exists rp = true
      · rw [if_pos hex]
        have hname := hnamed wp (List.mem_cons_self _ _) rp hr hex
        have hmk : Workspace.make wp (fs.read_package_json rp) =
            .ok ⟨wp, fs.read_package_json rp⟩ := by
          rw [Workspace.make, if_pos hname]
        rw [hmk, hws']
        exact ⟨_, rfl⟩
      · rw [if_neg hex, hws']
        exact ⟨ws', rfl⟩

/-- Claim C8: a workspace member path resolving outside the project root is a
fatal error; a member without its own `package.json` is skipped (excluded from
the result) without failing; consequently every returned workspace lies inside
the project root and has a `package.json`, and extraction succeeds whenever no
member escapes and every present manifest is named. -/
theorem c8_workspace_extraction (fs : YarnFS) (workspaces_paths : List (List String)) :
    ((∃ p ∈ workspaces_paths, resolve_within [] p = none) →
      extract_workspace_metadata fs workspaces_paths =
        .error (.pathOutsideRoot "path leads outside the source directory")) ∧
    (∀ ws, extract_workspace_metadata fs workspaces_paths = .ok ws →
      ∀ w ∈ ws, (resolve_within [] w.path).isSome ∧
        ∃ rp, resolve_within [] (w.path ++ ["package.json"]) = some rp ∧
          fs.file_exists rp = true) ∧
    (∀ ws, extract_workspace_metadata fs workspaces_paths = .ok ws →
      ∀ p ∈ workspaces_paths, ∀ rp,
        resolve_within [] (p ++ ["package.json"]) = some rp →
        fs.file_exists rp = false → p ∉ ws.map Workspace.path) ∧
    ((∀ p ∈ workspaces_paths, (resolve_within [] p).isSome) →
     (∀ p ∈ workspaces_paths, ∀ rp,
        resolve_within [] (p ++ ["package.json"]) = some rp →
        fs.file_exists rp = true →
        (fs.read_package_json rp).data_keys.contains "name" = true) →
     ∃ ws, extract_workspace_metadata fs workspaces_paths = .ok ws) := by
  refine ⟨fun hesc => ?_, fun ws h => ?_, fun ws h => ?_, fun hin hnamed => ?_⟩
  · rw [extract_workspace_metadata, ensure_error_of_escape workspaces_paths hesc]
  · rw [extract_workspace_metadata] at h
    rcases he : ensure_no_path_leads_out workspaces_paths with e | u
    · rw [he] at h; exact absurd h (by simp)
    · rcases u
      rw [he] at h
      intro w hw
      rcases collect_workspaces_ok_mem fs workspaces_paths ws h w hw with ⟨hmem, hrest⟩
      exact ⟨(ensure_ok_iff workspaces_paths).mp he w.path hmem, hrest⟩
  · rw [extract_workspace_metadata] at h
    rcases he : ensure_no_path_leads_out workspaces_paths with e | u
    · rw [he] at h; exact absurd h (by simp)
    · rcases u
      rw [he] at h
      intro p _ rp hrp hnot
      exact collect_workspaces_excludes fs workspaces_paths ws h p rp hrp hnot
  · have he : ensure_no_path_leads_out workspaces_paths = .ok () :=
      (ensure_ok_iff workspaces_paths).mpr hin
    have hsome : ∀ p ∈ workspaces_paths,
        (resolve_within [] (p ++ ["package.json"])).isSome := by
      intro p hp
      rcases Option.isSome_iff_exists.mp (hin p hp) with ⟨acc, hacc⟩
      rw [resolve_within_append, hacc]
      simp [resolve_within]
    rcases collect_workspaces_total fs workspaces_paths hsome hnamed with ⟨ws, hws⟩
    rw [extract_workspace_metadata, he, hws]
    exact ⟨ws, rfl⟩

/-- Witness for C8: an escaping member path is fatal, and a member with a
named `package.json` is returned as a workspace inside the root. -/
theorem c8_workspace_extraction_witness :
    extract_workspace_metadata c8_fs [[".."]] =
      .error (.pathOutsideRoot "path leads outside the source directory") ∧
    ∃ ws, extract_workspace_metadata c8_fs [["packages", "a"], ["packages", "b"]] =
      .ok ws :=
  ⟨(c8_workspace_extraction c8_fs [[".."]]).1 (by decide),
   (c8_workspace_extraction c8_fs [["packages", "a"], ["packages", "b"]]).2.2.2
     (by decide)
     (by
       intro p hp rp hrp hex
       rcases List.mem_cons.mp hp with h' | h'
       · subst h'
         simp [resolve_within] at hrp
         subst hrp
         decide
       · rcases List.mem_cons.mp h' with h'' | h''
         · subst h''
           simp [resolve_within] at hrp
           subst hrp
           simp [c8_fs] at hex
         · simp at h'')⟩

/-! ### Claim C9 -/

/-- Claim C9: the relative cache filepath of a URL or VCS requirement is a
deterministic pure function of the requirement's identifying data — for a URL
requirement the package name, the hash specifier (first `--hash` or
`cachito_hash`) and the URL's recognized file extension (plus the wheel
filename when the extension is `.whl`); for a VCS requirement the extracted
git host, namespace, repository and ref.  Two requirements agreeing on that
data map to the same path. -/
theorem c9_external_filepath_deterministic (r1 r2 : PipRequirement) :
    (r1.kind = .url → r2.kind = .url →
      r1.package = r2.package →
      url_req_hash_spec r1 = url_req_hash_spec r2 →
      url_req_file_ext r1 = url_req_file_ext r2 →
      (url_req_file_ext r1 = WHEEL_FILE_EXTENSION →
        path_basename (urlparse r1.url).path = path_basename (urlparse r2.url).path) →
      get_external_requirement_filepath r1 = get_external_requirement_filepath r2) ∧
    (r1.kind = .vcs → r2.kind = .vcs →
      extract_git_info r1.url = extract_git_info r2.url →
      get_external_requirement_filepath r1 = get_external_requirement_filepath r2) := by
  constructor
  · intro hk1 hk2 hpkg hhash hext hwhl
    simp only [get_external_requirement_filepath, hk1, hk2]
    rw [← hhash, ← hpkg, ← hext]
    rcases hh : url_req_hash_spec r1 with _ | hs
    · rfl
    · dsimp only
      by_cases hw : url_req_file_ext r1 = WHEEL_FILE_EXTENSION
      · rw [if_pos hw, if_pos hw, hwhl hw]
      · rw [if_neg hw, if_neg hw]
  · intro hk1 hk2 hgit
    simp only [get_external_requirement_filepath, hk1, hk2]
    rw [← hgit]

/-- Witness for C9: two distinct URL requirements with equal identifying data
map to the same cache path. -/
theorem c9_external_filepath_deterministic_witness :
    c9_r1 ≠ c9_r2 ∧
    get_external_requirement_filepath c9_r1 = get_external_requirement_filepath c9_r2 :=
  ⟨by decide,
   (c9_external_filepath_deterministic c9_r1 c9_r2).1 rfl rfl (by decide) (by decide)
     (by decide) (by decide)⟩
